import Mathlib

/-!
Shallow embedding of `src/src/pc/protocols/usb_host.cpp` (the XLink USB host
transport): the device-path encoder, the MxId acquisition protocol with its
per-sweep cache, the device enumerator, the firmware boot bulk-write loop, and
the post-boot bulk data pipe.

Conventions of the embedding:
* machine integers become `Nat`/`Int` (the C fields are `uint8_t`/`uint16_t`/
  `int`; arithmetic never overflows in the modelled paths, and the `uint8`
  ranges appear as explicit `< 256` hypotheses where they matter);
* libusb calls become oracle values supplied through explicit environment
  structures (one entry per call the C code would make), so every retry loop
  turns into structural recursion over an oracle list — the list length plays
  the role of the wall-clock retry budget, which itself is real time and is
  not modelled;
* the MxId cache lives in `usb_mx_id.c`, which is not part of the sources;
  its three operations are modelled from the spec (section 4.2) and marked as
  such below.
-/

namespace XLinkUsbHost

/-- Constant MAXIMUM_PORT_NUMBERS (usb_host.cpp line 26): the port-chain bound
passed to `libusb_get_port_numbers`. -/
def MAXIMUM_PORT_NUMBERS : Nat := 7

/-- Constant USB1_CHUNKSZ (line 34): boot-transfer chunk size for USB 1.x. -/
def USB1_CHUNKSZ : Nat := 64

/-- Constant USB_ENDPOINT_IN (line 36): fixed bulk IN endpoint `0x81`. -/
def USB_ENDPOINT_IN : Nat := 0x81

/-- Constant USB_ENDPOINT_OUT (line 37): fixed bulk OUT endpoint `0x01`. -/
def USB_ENDPOINT_OUT : Nat := 0x01

/-- Constant XLINK_USB_DATA_TIMEOUT (line 39): zero timeout for the data pipe. -/
def XLINK_USB_DATA_TIMEOUT : Nat := 0

/-- libusb return code LIBUSB_SUCCESS (libusb.h, external collaborator). -/
def LIBUSB_SUCCESS : Int := 0

/-- libusb return code LIBUSB_ERROR_ACCESS (libusb.h). -/
def LIBUSB_ERROR_ACCESS : Int := -3

/-- libusb return code LIBUSB_ERROR_NO_DEVICE (libusb.h). -/
def LIBUSB_ERROR_NO_DEVICE : Int := -4

/-- libusb return code LIBUSB_ERROR_BUSY (libusb.h). -/
def LIBUSB_ERROR_BUSY : Int := -6

/-- libusb return code LIBUSB_ERROR_TIMEOUT (libusb.h). -/
def LIBUSB_ERROR_TIMEOUT : Int := -7

/-- Modelled from the spec: XLinkPublicDefines.h is not among the sources; the
spec (section 3) says `path` is a bounded string with a well-defined maximum
length.  The buffer bound of the `name` field of `deviceDesc_t` is taken as
64 bytes; only `64 > 32` (an upper bound on every encodable device path) is
used by the proofs. -/
def XLINK_MAX_NAME_SIZE : Nat := 64

/-- Modelled from the spec: XLinkPublicDefines.h is not among the sources; the
spec (section 3 and glossary) says `mxid` is a bounded string whose canonical
form is 18 hex characters.  The buffer bound is taken as 32 bytes; only
`32 > 31` is used by the proofs. -/
def XLINK_MAX_MX_ID_SIZE : Nat := 32

/-- Modelled from the spec: the MxId cache capacity, "a process-wide bounded
set (size on the order of 16)" (spec section 3), "possible case: >16 devices"
(usb_host.cpp line 440). -/
def USB_MX_ID_CACHE_SIZE : Nat := 16

/-- Device lifecycle state `XLinkDeviceState_t` (XLinkPublicDefines.h as used
by usb_host.cpp); `X_LINK_ANY_STATE` is only ever a filter value. -/
inductive XLinkDeviceState_t where
  | X_LINK_ANY_STATE
  | X_LINK_BOOTED
  | X_LINK_UNBOOTED
  | X_LINK_BOOTLOADER
deriving DecidableEq, Repr

export XLinkDeviceState_t (X_LINK_ANY_STATE X_LINK_BOOTED X_LINK_UNBOOTED X_LINK_BOOTLOADER)

/-- Per-record status `XLinkError_t` as used by `getUSBDevices` (lines 136-169):
only the three values the switch can produce are modelled. -/
inductive XLinkError_t where
  | X_LINK_SUCCESS
  | X_LINK_INSUFFICIENT_PERMISSIONS
  | X_LINK_ERROR
deriving DecidableEq, Repr

export XLinkError_t (X_LINK_SUCCESS X_LINK_INSUFFICIENT_PERMISSIONS X_LINK_ERROR)

/-- Sweep-wide result `xLinkPlatformErrorCode_t` as used by `getUSBDevices`. -/
inductive xLinkPlatformErrorCode_t where
  | X_LINK_PLATFORM_SUCCESS
  | X_LINK_PLATFORM_ERROR
deriving DecidableEq, Repr

export xLinkPlatformErrorCode_t (X_LINK_PLATFORM_SUCCESS X_LINK_PLATFORM_ERROR)

/-- Platform constant stored into every record (line 182). -/
inductive XLinkPlatform_t where
  | X_LINK_MYRIAD_X
deriving DecidableEq, Repr

/-- Protocol constant stored into every record (line 183). -/
inductive XLinkProtocol_t where
  | X_LINK_USB_VSC
deriving DecidableEq, Repr

/-- Result codes of `send_file` (usb_boot_error in usb_host.h, not among the
sources; `send_file` returns `0`, `USB_BOOT_TIMEOUT` or `USB_BOOT_ERROR`,
lines 557-574, and `USB_BOOT_SUCCESS` stands for the literal `return 0`). -/
inductive usbBootError_t where
  | USB_BOOT_SUCCESS
  | USB_BOOT_ERROR
  | USB_BOOT_TIMEOUT
deriving DecidableEq, Repr

export usbBootError_t (USB_BOOT_SUCCESS USB_BOOT_ERROR USB_BOOT_TIMEOUT)

/-- Semantics of `strncpy(dst, src.c_str(), n)` into a zeroed `n`-byte buffer
(lines 185-188): the stored C string is the first `n` characters of `src`. -/
def strncpyStr (n : Nat) (s : String) : String := String.mk (s.data.take n)

/-- Rendering of the port chain (lines 266-269): every port but the last is
followed by `"."`, the last is appended bare. -/
def portsRender : List Nat → String
  | [] => ""
  | [p] => Nat.repr p
  | p :: q :: rest => Nat.repr p ++ "." ++ portsRender (q :: rest)

/-- Embedding of `getLibusbDevicePath` (lines 246-273).  The device is
abstracted by its bus number and port chain; `libusb_get_port_numbers`
reports `LIBUSB_ERROR_OVERFLOW` exactly when the chain exceeds
`MAXIMUM_PORT_NUMBERS`.  Note the bus number is rendered with a trailing
`"."` (line 252) before the zero-port early return (lines 261-264). -/
def getLibusbDevicePath (bus : Nat) (ports : List Nat) : String :=
  let devicePath := Nat.repr bus ++ "."
  if MAXIMUM_PORT_NUMBERS < ports.length then "<error>"
  else if ports.length = 0 then devicePath
  else devicePath ++ portsRender ports

/-- Uppercase hexadecimal digit, as produced by `sprintf` `%02X` (line 407). -/
def hexDigit (n : Nat) : Char :=
  if n < 10 then Char.ofNat (48 + n) else Char.ofNat (55 + n)

/-- Two-digit uppercase hexadecimal rendering of one byte (`%02X`). -/
def hexByte (b : Nat) : String :=
  String.mk [hexDigit (b / 16 % 16), hexDigit (b % 16)]

/-- The `sprintf` loop of lines 406-408: bytes rendered back to back. -/
def renderHex : List Nat → String
  | [] => ""
  | b :: rest => hexByte b ++ renderHex rest

/-- The in-place mask `rbuf[8] &= 0xF0` of line 403. -/
def maskMxIdBytes (bytes : List Nat) : List Nat :=
  bytes.set 8 (bytes.getD 8 0 &&& 0xF0)

/-- MxId rendering of the 9-byte IN response (lines 401-408): mask byte index 8
with `0xF0`, then render every byte as two uppercase hex digits. -/
def renderMxId (rbuf : List Nat) : String :=
  renderHex (maskMxIdBytes rbuf)

/-- Recogniser for uppercase hexadecimal digit characters. -/
def isUpperHexDigit (c : Char) : Bool :=
  (48 ≤ c.toNat && c.toNat ≤ 57) || (65 ≤ c.toNat && c.toNat ≤ 70)

/-- Modelled from the spec: the MxId cache state of `usb_mx_id.c` (not among
the sources), spec section 4.2 — a bounded associative store from device path
to serial; only the valid entries are modelled. -/
structure MxIdCache where
  entries : List (String × String)
deriving DecidableEq, Repr

/-- Modelled from the spec: `usb_mx_id_cache_init` (spec section 4.2,
"init-for-sweep: invalidate all entries"). -/
def usb_mx_id_cache_init : MxIdCache := ⟨[]⟩

/-- Modelled from the spec: `usb_mx_id_cache_get_entry` (spec section 4.2,
"lookup(path): returns the cached serial for an exactly-matching path or
miss"). -/
def usb_mx_id_cache_get_entry (cache : MxIdCache) (path : String) : Option String :=
  (cache.entries.find? (fun e => e.1 == path)).map (fun e => e.2)

/-- Modelled from the spec: `usb_mx_id_cache_store_entry` (spec section 4.2,
"store(path, mxid): stores into the first empty slot, returns that slot, or
reports the cache is full", the full case returning a negative index,
usb_host.cpp lines 441-448). -/
def usb_mx_id_cache_store_entry (cache : MxIdCache) (mxid path : String) :
    MxIdCache × Int :=
  if cache.entries.length < USB_MX_ID_CACHE_SIZE then
    (⟨cache.entries ++ [(path, mxid)]⟩, (cache.entries.length : Int))
  else (cache, -1)

/-- One iteration's worth of libusb outcomes for the UNBOOTED branch of the
retry loop of `getLibusbDeviceMxId` (lines 315-411), one field per libusb call
the branch makes. -/
structure UnbootedAttempt where
  getConfigRc : Int
  activeConfiguration : Int
  setConfigRc : Int
  claimRc : Int
  sendRc : Int
  sendTransferred : Int
  readRc : Int
  readBuf : List Nat
  endRc : Int
  endTransferred : Int
deriving DecidableEq, Repr

/-- Environment of one `getLibusbDeviceMxId` call: the open outcome and the
per-attempt libusb outcomes.  The payload sizes come from the opaque
collaborator blobs (`usb_mx_id_get_payload_size`, `usb_mx_id_get_payload_end_size`).
The attempt lists' lengths play the role of the 5 ms retry budget. -/
structure MxIdEnv where
  payloadSize : Int
  payloadEndSize : Int
  openRc : Int
  unbootedAttempts : List UnbootedAttempt
  stringDescAttempts : List (Int × String)
deriving DecidableEq, Repr

/-- Observable outcome of `getLibusbDeviceMxId`: the returned `libusb_error`,
the `outMxId` out-parameter, the cache afterwards, and whether `libusb_open`
was called (false exactly on the cache fast path). -/
structure MxIdOutcome where
  rc : Int
  outMxId : String
  cache : MxIdCache
  openedDevice : Bool
deriving DecidableEq, Repr

/-- One UNBOOTED-state attempt of the retry loop (lines 315-411): get/set
configuration, claim interface 0, bulk-write the request payload, bulk-read
the 9-byte response, bulk-write the end payload.  Any failure yields
`Except.error` carrying the `libusb_rc` value the C code retries with (the
three transfer checks overwrite it with `-1`, lines 362/377/389); success
yields the rendered MxId string (lines 401-408). -/
def unbootedStep (payloadSize payloadEndSize : Int) (a : UnbootedAttempt) :
    Except Int String :=
  if a.getConfigRc = 0 then
    if a.activeConfiguration ≠ 1 ∧ a.setConfigRc < 0 then Except.error a.setConfigRc
    else if a.claimRc < 0 then Except.error a.claimRc
    else if a.sendRc < 0 ∨ payloadSize ≠ a.sendTransferred then Except.error (-1)
    else if a.readRc < 0 ∨ (9 : Int) ≠ (a.readBuf.length : Int) then Except.error (-1)
    else if a.endRc < 0 ∨ payloadEndSize ≠ a.endTransferred then Except.error (-1)
    else Except.ok (renderMxId a.readBuf)
  else Except.error a.getConfigRc

/-- One BOOTED/BOOTLOADER-state attempt (lines 415-424):
`libusb_get_string_descriptor_ascii` into the 32-byte `mxId` buffer, which
stores at most `XLINK_MAX_MX_ID_SIZE - 1` characters plus the terminator. -/
def bootedStep (att : Int × String) : Except Int String :=
  if att.1 < 0 then Except.error att.1
  else Except.ok (strncpyStr (XLINK_MAX_MX_ID_SIZE - 1) att.2)

/-- The do-while retry loop of lines 312-428: the body always runs once; a
successful body ends the loop; when the budget (the oracle list) is exhausted
the last failure's `libusb_rc` is returned.  The empty-list case is
unreachable from the C code (the body always runs at least once) and is given
the generic failure mark `-1`. -/
def retryLoop {α : Type} (step : α → Except Int String) : List α → Except Int String
  | [] => Except.error (-1)
  | [a] => step a
  | a :: b :: rest =>
    match step a with
    | Except.ok s => Except.ok s
    | Except.error _ => retryLoop step (b :: rest)

/-- Embedding of `getLibusbDeviceMxId` (lines 275-455): cache fast path,
open, state-dependent retry loop, unconditional close (no modelled state),
error return with empty `outMxId`, and cache store on success (a full cache is
ignored). -/
def getLibusbDeviceMxId (state : XLinkDeviceState_t) (devicePath : String)
    (env : MxIdEnv) (cache : MxIdCache) : MxIdOutcome :=
  match usb_mx_id_cache_get_entry cache devicePath with
  | some cached => ⟨LIBUSB_SUCCESS, cached, cache, false⟩
  | none =>
    if env.openRc < 0 then ⟨env.openRc, "", cache, true⟩
    else
      let r :=
        if state = X_LINK_UNBOOTED then
          retryLoop (unbootedStep env.payloadSize env.payloadEndSize) env.unbootedAttempts
        else
          retryLoop bootedStep env.stringDescAttempts
      match r with
      | Except.error rc => ⟨rc, "", cache, true⟩
      | Except.ok mxid =>
        ⟨LIBUSB_SUCCESS, mxid, (usb_mx_id_cache_store_entry cache mxid devicePath).1, true⟩

/-- The exported device record `deviceDesc_t` (XLinkPublicDefines.h shape as
used by lines 181-188); the same structure carries the caller's requirements
(`in_deviceRequirements`), whose `state`, `name` and `mxid` fields act as the
filter. -/
structure deviceDesc_t where
  status : XLinkError_t
  platform : XLinkPlatform_t
  protocol : XLinkProtocol_t
  state : XLinkDeviceState_t
  name : String
  mxid : String
deriving DecidableEq, Repr

/-- One USB device as the enumerator sees it: list-slot presence (line 116),
descriptor-read success (lines 124-128), the descriptor's vid/pid, the
topology for the path encoder, and the oracle for the MxId acquisition. -/
structure UsbDeviceSim where
  present : Bool
  descOk : Bool
  idVendor : Nat
  idProduct : Nat
  bus : Nat
  ports : List Nat
  mxidEnv : MxIdEnv
deriving DecidableEq, Repr

/-- The fixed vid/pid-to-state table of lines 84-88. -/
def vidPidToDeviceState (idVendor idProduct : Nat) : Option XLinkDeviceState_t :=
  if idVendor = 0x03E7 ∧ idProduct = 0x2485 then some X_LINK_UNBOOTED
  else if idVendor = 0x03E7 ∧ idProduct = 0xf63b then some X_LINK_BOOTED
  else if idVendor = 0x03E7 ∧ idProduct = 0xf63c then some X_LINK_BOOTLOADER
  else none

/-- The status switch of lines 158-169: translate the MxId acquisition outcome
into the per-record status. -/
def statusSwitch (rc : Int) : XLinkError_t :=
  if rc = LIBUSB_SUCCESS then X_LINK_SUCCESS
  else if rc = LIBUSB_ERROR_ACCESS then X_LINK_INSUFFICIENT_PERMISSIONS
  else X_LINK_ERROR

/-- Loop body of `getUSBDevices` for one non-null device (lines 122-189):
descriptor check, vid/pid table, state filter, path plus name filter, MxId
acquisition with status translation, mxid filter, record fill-out.  Returns
the cache afterwards and the record, if any. -/
def processDevice (req : deviceDesc_t) (cache : MxIdCache) (d : UsbDeviceSim) :
    MxIdCache × Option deviceDesc_t :=
  if d.descOk = false then (cache, none)
  else
    match vidPidToDeviceState d.idVendor d.idProduct with
    | none => (cache, none)
    | some state =>
      if req.state ≠ X_LINK_ANY_STATE ∧ state ≠ req.state then (cache, none)
      else
        let devicePath := getLibusbDevicePath d.bus d.ports
        if 0 < req.name.length ∧ req.name ≠ devicePath then (cache, none)
        else
          let o := getLibusbDeviceMxId state devicePath d.mxidEnv cache
          if 0 < req.mxid.length ∧ req.mxid ≠ o.outMxId then (o.cache, none)
          else
            (o.cache, some {
              status := statusSwitch o.rc
              platform := XLinkPlatform_t.X_LINK_MYRIAD_X
              protocol := XLinkProtocol_t.X_LINK_USB_VSC
              state := state
              name := strncpyStr XLINK_MAX_NAME_SIZE devicePath
              mxid := strncpyStr XLINK_MAX_MX_ID_SIZE o.outMxId })

/-- The device loop of `getUSBDevices` (lines 115-193): null slots are skipped
before the capacity check (lines 116-120); `room` is the remaining capacity
`sizeFoundDevices - numDevicesFound`. -/
def getUSBDevicesLoop (req : deviceDesc_t) :
    List UsbDeviceSim → Nat → MxIdCache → List deviceDesc_t
  | [], _, _ => []
  | d :: rest, room, cache =>
    if d.present = false then getUSBDevicesLoop req rest room cache
    else if room = 0 then []
    else
      match processDevice req cache d with
      | (cache2, none) => getUSBDevicesLoop req rest room cache2
      | (cache2, some rec) => rec :: getUSBDevicesLoop req rest (room - 1) cache2

/-- Embedding of `getUSBDevices` (lines 96-202): a failed device-list fetch
returns `X_LINK_PLATFORM_ERROR` (lines 105-108); otherwise the cache is
re-initialised, the loop runs, and the sweep returns
`X_LINK_PLATFORM_SUCCESS` unconditionally (line 201). -/
def getUSBDevices (req : deviceDesc_t) (sizeFoundDevices : Nat)
    (fetch : Option (List UsbDeviceSim)) :
    xLinkPlatformErrorCode_t × List deviceDesc_t :=
  match fetch with
  | none => (X_LINK_PLATFORM_ERROR, [])
  | some devs =>
    (X_LINK_PLATFORM_SUCCESS, getUSBDevicesLoop req devs sizeFoundDevices usb_mx_id_cache_init)

/-- Well-formedness of a simulated device: its bus and port numbers are
`uint8_t` values, as in the C types. -/
def deviceWF (d : UsbDeviceSim) : Bool :=
  decide (d.bus < 256) && d.ports.all (fun p => decide (p < 256))

/-- File-scope `bulk_chunklen` after a successful `usb_open_device` (line 516):
it is assigned the discovered bulk-OUT endpoint's `wMaxPacketSize`. -/
def bulk_chunklen_after_open (wMaxPacketSize : Nat) : Nat := wMaxPacketSize

/-- Chunk length used by `send_file`'s bulk-write loop: the LOCAL
`bulk_chunklen` declared at line 533 (it shadows the file-scope global of
line 41, so the value stored at line 516 is never read), initialized to
`DEFAULT_CHUNKSZ` (a compile-time constant from usb_host.h, not among the
sources, kept here as the parameter `defaultChunk`), overridden to
`USB1_CHUNKSZ` for `bcdusb < 0x200` (lines 538-540). -/
def send_file_chunklen (defaultChunk bcdusb : Nat) : Nat :=
  if bcdusb < 0x200 then USB1_CHUNKSZ else defaultChunk

/-- The bulk-write loop of `send_file` (lines 544-567) under error-free
transfers, recorded as the list of transfer lengths it issues: while
`twb < filesize || send_zlp`, write `wb = min(remaining, bulk_chunklen)`
bytes; a zero-length write (the ZLP) ends the loop (lines 563-564).
`remaining` stands for `filesize - twb`.  `fuel` is only a structural
recursion bound: every iteration either breaks or strictly decreases
`remaining`, so `remaining + 1` fuel always suffices (`send_file_loop`). -/
def send_file_go (bulk_chunklen : Nat) (send_zlp : Bool) : Nat → Nat → List Nat
  | 0, _ => []
  | fuel + 1, remaining =>
    if remaining = 0 ∧ send_zlp = false then []
    else
      let wb := min remaining bulk_chunklen
      if wb = 0 then [0]
      else wb :: send_file_go bulk_chunklen send_zlp fuel (remaining - wb)

/-- The bulk-write loop of `send_file` started with sufficient fuel. -/
def send_file_loop (bulk_chunklen : Nat) (send_zlp : Bool) (remaining : Nat) :
    List Nat :=
  send_file_go bulk_chunklen send_zlp (remaining + 1) remaining

/-- Transfer lengths issued by `send_file` (lines 526-575) for a given chunk
length and image size under error-free transfers: `send_zlp` is
`(filesize % 512) == 0` (line 536). -/
def send_file_transfers (bulk_chunklen filesize : Nat) : List Nat :=
  send_file_loop bulk_chunklen (filesize % 512 == 0) filesize

/-- Outcome of one `libusb_bulk_transfer` inside `send_file`: the return code
and the reported written-byte count `wbr`. -/
structure TransferOutcome where
  rc : Int
  wbr : Nat
deriving DecidableEq, Repr

/-- The bulk-write loop of `send_file` (lines 544-567) with per-transfer
outcomes supplied by an oracle list.  The failure check of line 551 fires on a
non-zero return code or a short write, but never for the ZLP (`wb == 0`):
`LIBUSB_ERROR_NO_DEVICE` breaks out of the loop and `send_file` then falls
through to `return 0` (line 574), `LIBUSB_ERROR_TIMEOUT` returns
`USB_BOOT_TIMEOUT`, anything else returns `USB_BOOT_ERROR`.  The wall-clock
check of line 560 is real time and is not modelled.  `none` means the oracle
ran out before the loop finished. -/
def send_file_run (bulk_chunklen : Nat) (send_zlp : Bool) :
    Nat → List TransferOutcome → Option usbBootError_t
  | remaining, outcomes =>
    if remaining = 0 ∧ send_zlp = false then some USB_BOOT_SUCCESS
    else
      match outcomes with
      | [] => none
      | o :: rest =>
        let wb := min remaining bulk_chunklen
        if (o.rc ≠ 0 ∨ wb ≠ o.wbr) ∧ wb ≠ 0 then
          if o.rc = LIBUSB_ERROR_NO_DEVICE then some USB_BOOT_SUCCESS
          else if o.rc = LIBUSB_ERROR_TIMEOUT then some USB_BOOT_TIMEOUT
          else some USB_BOOT_ERROR
        else if wb = 0 then some USB_BOOT_SUCCESS
        else send_file_run bulk_chunklen send_zlp (remaining - wb) rest

/-- One chunked bulk-transfer request as issued by `usb_read`/`usb_write`. -/
structure BulkCall where
  endpoint : Nat
  requested : Nat
  timeoutMs : Nat
deriving DecidableEq, Repr

/-- The shared chunking loop of `usb_read` (lines 851-866) and `usb_write`
(lines 868-883): each iteration requests `ss = min(size, chunk_size)` bytes on
the fixed endpoint with zero timeout; the first non-zero return code is
returned as is; otherwise `size` decreases by the transferred count `bt`.
The oracle supplies `(rc, bt)` per call; the result is the returned code
(`none` when the oracle runs out), the list of issued requests, and the total
number of bytes transferred. -/
def usb_transfer_loop (endpoint chunk_size : Nat) :
    Nat → List (Int × Nat) → Option Int × List BulkCall × Nat
  | size, oracle =>
    if size = 0 then (some 0, [], 0)
    else
      match oracle with
      | [] => (none, [], 0)
      | (rc, bt) :: rest =>
        let ss := min size chunk_size
        let call : BulkCall := ⟨endpoint, ss, XLINK_USB_DATA_TIMEOUT⟩
        if rc ≠ 0 then (some rc, [call], 0)
        else
          let r := usb_transfer_loop endpoint chunk_size (size - bt) rest
          (r.1, call :: r.2.1, bt + r.2.2)

/-- Embedding of `usb_read` (lines 851-866): chunked bulk IN on endpoint
`0x81`.  `DEFAULT_CHUNKSZ` comes from usb_host.h (not among the sources) and
is kept as the parameter `chunk_size`. -/
def usb_read (chunk_size size : Nat) (oracle : List (Int × Nat)) :
    Option Int × List BulkCall × Nat :=
  usb_transfer_loop USB_ENDPOINT_IN chunk_size size oracle

/-- Embedding of `usb_write` (lines 868-883): chunked bulk OUT on endpoint
`0x01`. -/
def usb_write (chunk_size size : Nat) (oracle : List (Int × Nat)) :
    Option Int × List BulkCall × Nat :=
  usb_transfer_loop USB_ENDPOINT_OUT chunk_size size oracle

/-- Per-call bound on the oracle of `usb_transfer_loop`: libusb never reports
more transferred bytes than requested (`bt ≤ ss`). -/
def btBounded (chunk_size : Nat) : Nat → List (Int × Nat) → Bool
  | _, [] => true
  | size, (_, bt) :: rest =>
    decide (bt ≤ min size chunk_size) && btBounded chunk_size (size - bt) rest

/-- Minimal handle state for the close path: whether interface 0 is claimed
and whether the libusb handle is open. -/
structure UsbHandle where
  interfaceClaimed : Bool
  isOpen : Bool
deriving DecidableEq, Repr

/-- Embedding of `usbLinkClose` (lines 708-712): release interface 0, then
close the handle. -/
def usbLinkClose (f : UsbHandle) : UsbHandle :=
  { interfaceClaimed := false, isOpen := false }

/-- Embedding of `usbPlatformClose` in the USB backend configuration
(lines 814-834, `USE_USB_VSC` branch): call `usbLinkClose` on the handle and
return `-1` unconditionally (line 833). -/
def usbPlatformClose (fd : UsbHandle) : UsbHandle × Int :=
  (usbLinkClose fd, -1)

/-- Invariant carried through a sweep: every cached serial is at most 31
characters (the unbooted render is 18 characters, the booted string-descriptor
read stores at most `XLINK_MAX_MX_ID_SIZE - 1`). -/
def cacheWF (cache : MxIdCache) : Prop :=
  ∀ e ∈ cache.entries, e.2.length ≤ 31

/-- Concrete filter accepting everything (used by witnesses). -/
def reqAny : deviceDesc_t :=
  ⟨X_LINK_SUCCESS, XLinkPlatform_t.X_LINK_MYRIAD_X, XLinkProtocol_t.X_LINK_USB_VSC,
    X_LINK_ANY_STATE, "", ""⟩

/-- Concrete fully-successful UNBOOTED attempt whose IN response is the
9-byte example of the spec (used by witnesses). -/
def attemptOkConcrete : UnbootedAttempt :=
  { getConfigRc := 0, activeConfiguration := 1, setConfigRc := 0, claimRc := 0,
    sendRc := 0, sendTransferred := 10, readRc := 0,
    readBuf := [0x12, 0x34, 0x56, 0x78, 0x9A, 0xBC, 0xDE, 0xF0, 0x5A],
    endRc := 0, endTransferred := 4 }

/-- Concrete environment: open succeeds and the single attempt succeeds. -/
def envOkConcrete : MxIdEnv := ⟨10, 4, 0, [attemptOkConcrete], []⟩

/-- Concrete environment: `libusb_open` fails with `LIBUSB_ERROR_ACCESS`. -/
def envAccessDenied : MxIdEnv := ⟨10, 4, LIBUSB_ERROR_ACCESS, [], []⟩

/-- Concrete UNBOOTED device whose MxId acquisition succeeds. -/
def devUnbootedOk : UsbDeviceSim := ⟨true, true, 0x03E7, 0x2485, 1, [2], envOkConcrete⟩

/-- Concrete UNBOOTED device whose open is denied. -/
def devUnbootedDenied : UsbDeviceSim := ⟨true, true, 0x03E7, 0x2485, 1, [2], envAccessDenied⟩

/-! Helper lemmas. -/

set_option maxRecDepth 4000 in
theorem natRepr_length_le_three : ∀ n, n < 256 → (Nat.repr n).length ≤ 3 := by decide

theorem hexByte_length (b : Nat) : (hexByte b).length = 2 := rfl

theorem renderHex_length (l : List Nat) : (renderHex l).length = 2 * l.length := by
  induction l with
  | nil => rfl
  | cons b rest ih =>
    simp only [renderHex, String.length_append, hexByte_length, ih, List.length_cons]
    omega

theorem maskMxIdBytes_length (l : List Nat) : (maskMxIdBytes l).length = l.length := by
  simp [maskMxIdBytes]

theorem renderMxId_length (rbuf : List Nat) (h : rbuf.length = 9) :
    (renderMxId rbuf).length = 18 := by
  simp [renderMxId, renderHex_length, maskMxIdBytes_length, h]

theorem hexDigit_upper : ∀ n, n < 16 → isUpperHexDigit (hexDigit n) = true := by decide

theorem hexByte_upper (b : Nat) : ∀ c ∈ (hexByte b).data, isUpperHexDigit c = true := by
  intro c hc
  have hc2 : c = hexDigit (b / 16 % 16) ∨ c = hexDigit (b % 16) := by
    simpa [hexByte] using hc
  rcases hc2 with h | h <;> exact h ▸ hexDigit_upper _ (Nat.mod_lt _ (by omega))

theorem renderHex_upper (l : List Nat) : ∀ c ∈ (renderHex l).data, isUpperHexDigit c = true := by
  induction l with
  | nil => intro c hc; simp [renderHex] at hc
  | cons b rest ih =>
    intro c hc
    simp only [renderHex, String.data_append, List.mem_append] at hc
    rcases hc with h | h
    · exact hexByte_upper b c h
    · exact ih c h

theorem renderMxId_upper (rbuf : List Nat) :
    ∀ c ∈ (renderMxId rbuf).data, isUpperHexDigit c = true :=
  renderHex_upper _

theorem strncpyStr_of_le (n : Nat) (s : String) (h : s.length ≤ n) : strncpyStr n s = s := by
  simp only [strncpyStr, List.take_of_length_le h]

theorem strncpyStr_length_le (n : Nat) (s : String) : (strncpyStr n s).length ≤ n := by
  simp only [strncpyStr, String.length, List.length_take]
  omega

theorem string_eq_empty_of_length (s : String) (h : s.length = 0) : s = "" := by
  cases s with
  | mk data =>
    cases data with
    | nil => rfl
    | cons c l => simp [String.length] at h

theorem portsRender_length :
    ∀ ports : List Nat, (∀ p ∈ ports, p < 256) →
      (portsRender ports).length ≤ 4 * ports.length
  | [], _ => by simp [portsRender]
  | [p], h => by
    have := natRepr_length_le_three p (h p (by simp))
    simp only [portsRender, List.length_cons, List.length_nil]
    omega
  | p :: q :: rest, h => by
    have h1 := natRepr_length_le_three p (h p (by simp))
    have h2 := portsRender_length (q :: rest) (fun x hx => h x (by simp [hx]))
    have hdot : (".").length = 1 := rfl
    simp only [portsRender, String.length_append, List.length_cons] at h2 ⊢
    omega

theorem getLibusbDevicePath_length (bus : Nat) (ports : List Nat)
    (hb : bus < 256) (hp : ∀ p ∈ ports, p < 256) :
    (getLibusbDevicePath bus ports).length ≤ 32 := by
  have hbus := natRepr_length_le_three bus hb
  have hdot : (".").length = 1 := rfl
  have herr : ("<error>").length = 7 := rfl
  by_cases h7 : MAXIMUM_PORT_NUMBERS < ports.length
  · simp only [getLibusbDevicePath, if_pos h7]
    omega
  · by_cases h0 : ports.length = 0
    · simp only [getLibusbDevicePath, if_neg h7, if_pos h0, String.length_append]
      omega
    · have hple := portsRender_length ports hp
      have h7' : ports.length ≤ 7 := by
        simpa [MAXIMUM_PORT_NUMBERS, Nat.not_lt] using h7
      simp only [getLibusbDevicePath, if_neg h7, if_neg h0, String.length_append]
      omega

theorem cache_get_entry_mem (cache : MxIdCache) (path m : String)
    (h : usb_mx_id_cache_get_entry cache path = some m) :
    ∃ e ∈ cache.entries, e.2 = m := by
  simp only [usb_mx_id_cache_get_entry, Option.map_eq_some'] at h
  obtain ⟨e, he, hm⟩ := h
  exact ⟨e, List.mem_of_find?_eq_some he, hm⟩

theorem cache_store_get (cache : MxIdCache) (mxid path : String)
    (hmiss : usb_mx_id_cache_get_entry cache path = none)
    (hroom : cache.entries.length < USB_MX_ID_CACHE_SIZE) :
    usb_mx_id_cache_get_entry (usb_mx_id_cache_store_entry cache mxid path).1 path =
      some mxid := by
  simp only [usb_mx_id_cache_get_entry, Option.map_eq_none'] at hmiss
  simp only [usb_mx_id_cache_store_entry, if_pos hroom, usb_mx_id_cache_get_entry,
    List.find?_append, hmiss, Option.none_or]
  simp [List.find?]

theorem cache_store_wf (cache : MxIdCache) (mxid path : String)
    (hwf : cacheWF cache) (hlen : mxid.length ≤ 31) :
    cacheWF (usb_mx_id_cache_store_entry cache mxid path).1 := by
  simp only [usb_mx_id_cache_store_entry]
  split
  · intro e he
    simp only [List.mem_append, List.mem_singleton] at he
    rcases he with he | he
    · exact hwf e he
    · rw [he]; exact hlen
  · exact hwf

theorem retryLoop_ok_mem {α : Type} (step : α → Except Int String) :
    ∀ l s, retryLoop step l = Except.ok s → ∃ a ∈ l, step a = Except.ok s
  | [], s, h => by simp [retryLoop] at h
  | [a], s, h => ⟨a, by simp, by simpa [retryLoop] using h⟩
  | a :: b :: rest, s, h => by
    rw [retryLoop] at h
    cases hstep : step a with
    | ok s2 =>
      rw [hstep] at h
      exact ⟨a, by simp, by rw [hstep]; exact h⟩
    | error e =>
      rw [hstep] at h
      obtain ⟨x, hx, hs⟩ := retryLoop_ok_mem step (b :: rest) s h
      exact ⟨x, by simp only [List.mem_cons] at hx ⊢; tauto, hs⟩

theorem retryLoop_error_ne {α : Type} (step : α → Except Int String)
    (hstep : ∀ a e, step a = Except.error e → e ≠ 0) :
    ∀ l e, retryLoop step l = Except.error e → e ≠ 0
  | [], e, h => by
    simp only [retryLoop, Except.error.injEq] at h
    omega
  | [a], e, h => hstep a e (by simpa [retryLoop] using h)
  | a :: b :: rest, e, h => by
    rw [retryLoop] at h
    cases hs : step a with
    | ok s2 => rw [hs] at h; exact absurd h (by simp)
    | error e2 => rw [hs] at h; exact retryLoop_error_ne step hstep (b :: rest) e h

theorem unbootedStep_error_ne (ps pes : Int) (a : UnbootedAttempt) (e : Int)
    (h : unbootedStep ps pes a = Except.error e) : e ≠ 0 := by
  unfold unbootedStep at h
  split_ifs at h with h1 h2 h3 h4 h5 h6 <;>
    simp only [Except.error.injEq] at h <;> omega

theorem bootedStep_error_ne (att : Int × String) (e : Int)
    (h : bootedStep att = Except.error e) : e ≠ 0 := by
  unfold bootedStep at h
  split_ifs at h with h1 <;> simp only [Except.error.injEq] at h
  omega

theorem unbootedStep_ok (ps pes : Int) (a : UnbootedAttempt) (s : String)
    (h : unbootedStep ps pes a = Except.ok s) :
    a.readBuf.length = 9 ∧ s = renderMxId a.readBuf := by
  unfold unbootedStep at h
  split_ifs at h with h1 h2 h3 h4 h5 h6
  simp only [Except.ok.injEq] at h
  refine ⟨?_, h.symm⟩
  rw [not_or] at h5
  omega

theorem bootedStep_ok (att : Int × String) (s : String)
    (h : bootedStep att = Except.ok s) : s.length ≤ 31 := by
  unfold bootedStep at h
  split_ifs at h with h1
  simp only [Except.ok.injEq] at h
  rw [← h]
  exact strncpyStr_length_le _ _

theorem getLibusbDeviceMxId_bounds (st : XLinkDeviceState_t) (path : String)
    (env : MxIdEnv) (cache : MxIdCache) (hwf : cacheWF cache) :
    (getLibusbDeviceMxId st path env cache).outMxId.length ≤ 31 ∧
      cacheWF (getLibusbDeviceMxId st path env cache).cache := by
  unfold getLibusbDeviceMxId
  cases hget : usb_mx_id_cache_get_entry cache path with
  | some m =>
    obtain ⟨e, he, hm⟩ := cache_get_entry_mem cache path m hget
    exact ⟨hm ▸ hwf e he, hwf⟩
  | none =>
    by_cases hopen : env.openRc < 0
    · simp only [if_pos hopen]
      exact ⟨by simp [String.length], hwf⟩
    · simp only [if_neg hopen]
      by_cases hst : st = X_LINK_UNBOOTED
      · simp only [if_pos hst]
        cases hr : retryLoop (unbootedStep env.payloadSize env.payloadEndSize)
            env.unbootedAttempts with
        | error e => exact ⟨by simp [String.length], hwf⟩
        | ok mxid =>
          obtain ⟨a, _, hs⟩ := retryLoop_ok_mem _ _ _ hr
          obtain ⟨hlen9, hsr⟩ := unbootedStep_ok _ _ _ _ hs
          have hb : mxid.length ≤ 31 := by
            rw [hsr, renderMxId_length _ hlen9]; omega
          exact ⟨hb, cache_store_wf cache mxid path hwf hb⟩
      · simp only [if_neg hst]
        cases hr : retryLoop bootedStep env.stringDescAttempts with
        | error e => exact ⟨by simp [String.length], hwf⟩
        | ok mxid =>
          obtain ⟨a, _, hs⟩ := retryLoop_ok_mem _ _ _ hr
          have hb : mxid.length ≤ 31 := bootedStep_ok _ _ hs
          exact ⟨hb, cache_store_wf cache mxid path hwf hb⟩

theorem send_file_go_sum (c : Nat) (z : Bool) (hc : 0 < c) :
    ∀ fuel remaining, remaining < fuel →
      (send_file_go c z fuel remaining).sum = remaining := by
  intro fuel
  induction fuel with
  | zero => intro remaining h; omega
  | succ fuel ih =>
    intro remaining h
    rw [send_file_go]
    split
    · next h0 => simp [h0.1]
    · next h0 =>
      by_cases hwb : min remaining c = 0
      · have : remaining = 0 := by omega
        simp [hwb, this]
      · simp only [if_neg hwb, List.sum_cons]
        rw [ih (remaining - min remaining c) (by omega)]
        omega

theorem send_file_go_zlp (c : Nat) (hc : 0 < c) :
    ∀ fuel remaining, remaining < fuel →
      ∃ l, send_file_go c true fuel remaining = l ++ [0] ∧ ∀ x ∈ l, 0 < x := by
  intro fuel
  induction fuel with
  | zero => intro remaining h; omega
  | succ fuel ih =>
    intro remaining h
    rw [send_file_go]
    split
    · next h0 => exact absurd h0.2 (by simp)
    · next h0 =>
      by_cases hwb : min remaining c = 0
      · exact ⟨[], by simp [hwb], by simp⟩
      · obtain ⟨l, hl, hpos⟩ := ih (remaining - min remaining c) (by omega)
        refine ⟨min remaining c :: l, ?_, ?_⟩
        · simp only [if_neg hwb, hl, List.cons_append]
        · intro x hx
          rcases List.mem_cons.mp hx with h1 | h1
          · subst h1; omega
          · exact hpos x h1

theorem send_file_go_pos (c : Nat) (hc : 0 < c) :
    ∀ fuel remaining, remaining < fuel →
      ∀ x ∈ send_file_go c false fuel remaining, 0 < x := by
  intro fuel
  induction fuel with
  | zero => intro remaining h; omega
  | succ fuel ih =>
    intro remaining h x hx
    rw [send_file_go] at hx
    split at hx
    · simp at hx
    · next h0 =>
      by_cases hwb : min remaining c = 0
      · exfalso
        have : remaining = 0 := by omega
        exact h0 ⟨this, rfl⟩
      · simp only [if_neg hwb] at hx
        rcases List.mem_cons.mp hx with h1 | h1
        · subst h1; omega
        · exact ih (remaining - min remaining c) (by omega) x h1

/-! Claim theorems. -/

/-- C3, counterexample: the claim says a bus-only device path is exactly the
decimal bus number with no separator, but `getLibusbDevicePath` appends the
`"."` separator to the bus number (line 252) before the zero-port early
return (lines 261-264), so bus 3 with no ports renders as `"3."`, not
`"3"`. -/
theorem c3_counterexample_trailing_dot :
    getLibusbDevicePath 3 [] = "3." ∧ getLibusbDevicePath 3 [] ≠ "3" := by
  exact ⟨by decide, by decide⟩

/-- C3, amended: for every device whose backend port-chain has length zero,
the device path is the decimal rendering of the bus number followed by a
trailing `"."` separator. -/
theorem c3_amended_bus_only_path (bus : Nat) :
    getLibusbDevicePath bus [] = Nat.repr bus ++ "." := by
  simp [getLibusbDevicePath, MAXIMUM_PORT_NUMBERS]

/-- C4, code bug: `usb_open_device` stores the discovered bulk-OUT endpoint's
max-packet-size into the file-scope `bulk_chunklen` (line 516), but
`send_file` declares a local `bulk_chunklen` initialized to `DEFAULT_CHUNKSZ`
(line 533) that shadows it, so the discovered value (here 512) is never used:
with `DEFAULT_CHUNKSZ = 1048576` (the usb_host.h default) and `bcdusb =
0x0200` (USB 2.0), a 2048-byte image goes out as one 2048-byte chunk plus the
ZLP, not as four 512-byte chunks plus the ZLP as the claim requires. -/
theorem c4_code_bug_chunk_size :
    bulk_chunklen_after_open 512 = 512 ∧
    send_file_chunklen 1048576 0x0200 = 1048576 ∧
    send_file_chunklen 1048576 0x0200 ≠ bulk_chunklen_after_open 512 ∧
    send_file_transfers (send_file_chunklen 1048576 0x0200) 2048 = [2048, 0] ∧
    send_file_transfers (bulk_chunklen_after_open 512) 2048 = [512, 512, 512, 512, 0] ∧
    send_file_transfers (send_file_chunklen 1048576 0x0200) 2048 ≠
      send_file_transfers (bulk_chunklen_after_open 512) 2048 := by
  refine ⟨rfl, rfl, by decide, by decide, by decide, by decide⟩

/-- C5: for every chunk length and image length, under error-free transfers
`send_file` transmits exactly `filesize` payload bytes (the transfer lengths
sum to the image length), and it issues a single zero-length transfer, placed
after all payload chunks, exactly when `filesize` is a multiple of 512. -/
theorem c5_send_file_totals (bulk_chunklen filesize : Nat) (hc : 0 < bulk_chunklen) :
    (send_file_transfers bulk_chunklen filesize).sum = filesize ∧
    (filesize % 512 = 0 →
      ∃ l, send_file_transfers bulk_chunklen filesize = l ++ [0] ∧ ∀ x ∈ l, 0 < x) ∧
    (filesize % 512 ≠ 0 → ∀ x ∈ send_file_transfers bulk_chunklen filesize, 0 < x) := by
  refine ⟨send_file_go_sum _ _ hc _ _ (by omega), ?_, ?_⟩
  · intro hz
    have hzb : (filesize % 512 == 0) = true := by simpa using hz
    rw [send_file_transfers, hzb]
    exact send_file_go_zlp _ hc _ _ (by omega)
  · intro hz x hx
    have hzb : (filesize % 512 == 0) = false := by simpa using hz
    rw [send_file_transfers, hzb] at hx
    exact send_file_go_pos _ hc _ _ (by omega) x hx

/-- C5 witness: 1024-byte image with 512-byte chunks — two 512-byte transfers
and a trailing ZLP. -/
theorem c5_send_file_totals_witness :
    0 < 512 ∧
    ((send_file_transfers 512 1024).sum = 1024 ∧
      (1024 % 512 = 0 →
        ∃ l, send_file_transfers 512 1024 = l ++ [0] ∧ ∀ x ∈ l, 0 < x) ∧
      (1024 % 512 ≠ 0 → ∀ x ∈ send_file_transfers 512 1024, 0 < x)) :=
  ⟨by decide, c5_send_file_totals 512 1024 (by decide)⟩

/-- C8: inside `send_file`'s loop, when a transfer on a non-zero-length chunk
fails (non-zero return code or short write, line 551), a
`LIBUSB_ERROR_NO_DEVICE` code breaks out of the loop without an error return
(control falls through to `return 0`, modelled as `USB_BOOT_SUCCESS`);
`LIBUSB_ERROR_TIMEOUT` returns `USB_BOOT_TIMEOUT`; every other failure
returns `USB_BOOT_ERROR` (lines 550-567). -/
theorem c8_send_file_chunk_errors (bulk_chunklen : Nat) (send_zlp : Bool)
    (remaining : Nat) (o : TransferOutcome) (rest : List TransferOutcome)
    (hloop : ¬(remaining = 0 ∧ send_zlp = false))
    (hfail : o.rc ≠ 0 ∨ min remaining bulk_chunklen ≠ o.wbr)
    (hwb : min remaining bulk_chunklen ≠ 0) :
    send_file_run bulk_chunklen send_zlp remaining (o :: rest) =
      some (if o.rc = LIBUSB_ERROR_NO_DEVICE then USB_BOOT_SUCCESS
            else if o.rc = LIBUSB_ERROR_TIMEOUT then USB_BOOT_TIMEOUT
            else USB_BOOT_ERROR) := by
  rw [send_file_run]
  rw [if_neg hloop]
  simp only [if_pos (And.intro hfail hwb)]
  split_ifs <;> rfl

/-- C8 witness: a timeout, a vanished device, and a short write on the first
chunk of a 100-byte image with 512-byte chunks. -/
theorem c8_send_file_chunk_errors_witness :
    (¬((100 : Nat) = 0 ∧ false = false)) ∧
    send_file_run 512 false 100 [⟨LIBUSB_ERROR_TIMEOUT, 0⟩] = some USB_BOOT_TIMEOUT ∧
    send_file_run 512 false 100 [⟨LIBUSB_ERROR_NO_DEVICE, 0⟩] = some USB_BOOT_SUCCESS ∧
    send_file_run 512 false 100 [⟨0, 50⟩] = some USB_BOOT_ERROR := by
  refine ⟨by simp, ?_, ?_, ?_⟩
  · rw [c8_send_file_chunk_errors 512 false 100 ⟨LIBUSB_ERROR_TIMEOUT, 0⟩ []
      (by simp) (by decide) (by decide)]
    decide
  · rw [c8_send_file_chunk_errors 512 false 100 ⟨LIBUSB_ERROR_NO_DEVICE, 0⟩ []
      (by simp) (by decide) (by decide)]
    decide
  · rw [c8_send_file_chunk_errors 512 false 100 ⟨0, 50⟩ []
      (by simp) (by decide) (by decide)]
    decide

/-- C10: `usbPlatformClose` in the USB backend configuration releases the
interface and closes the handle via `usbLinkClose`, then returns `-1`
unconditionally (line 833); the return value never signals success. -/
theorem c10_usbPlatformClose_always_minus_one (fd : UsbHandle) :
    (usbPlatformClose fd).2 = -1 ∧ (usbPlatformClose fd).2 ≠ 0 ∧
    (usbPlatformClose fd).1.interfaceClaimed = false ∧
    (usbPlatformClose fd).1.isOpen = false :=
  ⟨rfl, (by decide : (-1 : Int) ≠ 0), rfl, rfl⟩

/-- Characterization of a cache-missing `getLibusbDeviceMxId` call that
returned success: the state-appropriate retry loop produced a serial, which
is returned and stored into the cache (lines 290-453). -/
theorem getLibusbDeviceMxId_miss_ok (st : XLinkDeviceState_t) (path : String)
    (env : MxIdEnv) (cache : MxIdCache)
    (hmiss : usb_mx_id_cache_get_entry cache path = none)
    (hrc : (getLibusbDeviceMxId st path env cache).rc = LIBUSB_SUCCESS) :
    ∃ mxid,
      (if st = X_LINK_UNBOOTED then
        retryLoop (unbootedStep env.payloadSize env.payloadEndSize) env.unbootedAttempts
       else retryLoop bootedStep env.stringDescAttempts) = Except.ok mxid ∧
      getLibusbDeviceMxId st path env cache =
        ⟨LIBUSB_SUCCESS, mxid, (usb_mx_id_cache_store_entry cache mxid path).1, true⟩ := by
  unfold getLibusbDeviceMxId at hrc ⊢
  rw [hmiss] at hrc ⊢
  by_cases hopen : env.openRc < 0
  · rw [if_pos hopen] at hrc
    dsimp only at hrc
    rw [LIBUSB_SUCCESS] at hrc
    omega
  · rw [if_neg hopen] at hrc ⊢
    by_cases hst : st = X_LINK_UNBOOTED
    · rw [if_pos hst] at hrc ⊢
      cases hr : retryLoop (unbootedStep env.payloadSize env.payloadEndSize)
          env.unbootedAttempts with
      | error e =>
        rw [hr] at hrc
        dsimp only at hrc
        exact absurd hrc
          (retryLoop_error_ne _ (fun a e h => unbootedStep_error_ne _ _ a e h) _ _ hr)
      | ok mxid =>
        exact ⟨mxid, rfl, rfl⟩
    · rw [if_neg hst] at hrc ⊢
      cases hr : retryLoop bootedStep env.stringDescAttempts with
      | error e =>
        rw [hr] at hrc
        dsimp only at hrc
        exact absurd hrc
          (retryLoop_error_ne _ (fun a e h => bootedStep_error_ne a e h) _ _ hr)
      | ok mxid =>
        exact ⟨mxid, rfl, rfl⟩

/-- C1: for every MxId acquisition on an UNBOOTED device that misses the
cache and returns success, the returned `outMxId` is the rendering of the
9-byte IN response of a successful attempt: byte index 8 masked with `0xF0`,
every byte as two uppercase hex digits, 18 characters in total; in
particular, the response bytes 12 34 56 78 9A BC DE F0 5A render to
`"123456789ABCDEF050"`.  The hypothesis `hbytes` records that the wire bytes
are `uint8_t` values, as in the C buffer type. -/
theorem c1_unbooted_mxid_rendering (path : String) (env : MxIdEnv) (cache : MxIdCache)
    (hmiss : usb_mx_id_cache_get_entry cache path = none)
    (hbytes : ∀ a ∈ env.unbootedAttempts, ∀ b ∈ a.readBuf, b < 256)
    (hrc : (getLibusbDeviceMxId X_LINK_UNBOOTED path env cache).rc = LIBUSB_SUCCESS) :
    (∃ a ∈ env.unbootedAttempts,
      a.readBuf.length = 9 ∧
      (getLibusbDeviceMxId X_LINK_UNBOOTED path env cache).outMxId = renderMxId a.readBuf ∧
      (getLibusbDeviceMxId X_LINK_UNBOOTED path env cache).outMxId.length = 18 ∧
      ∀ c ∈ (getLibusbDeviceMxId X_LINK_UNBOOTED path env cache).outMxId.data,
        isUpperHexDigit c = true) ∧
    renderMxId [0x12, 0x34, 0x56, 0x78, 0x9A, 0xBC, 0xDE, 0xF0, 0x5A] =
      "123456789ABCDEF050" := by
  refine ⟨?_, by decide⟩
  obtain ⟨mxid, hr, heq⟩ := getLibusbDeviceMxId_miss_ok _ path env cache hmiss hrc
  rw [if_pos rfl] at hr
  obtain ⟨a, ha, hs⟩ := retryLoop_ok_mem _ _ _ hr
  obtain ⟨hlen9, hsr⟩ := unbootedStep_ok _ _ _ _ hs
  rw [heq]
  dsimp only
  refine ⟨a, ha, hlen9, hsr, ?_, ?_⟩
  · rw [hsr]
    exact renderMxId_length _ hlen9
  · rw [hsr]
    exact renderMxId_upper a.readBuf

/-- C1 witness: empty cache, open succeeds, single fully-successful attempt
with the spec's example response bytes. -/
theorem c1_unbooted_mxid_rendering_witness :
    usb_mx_id_cache_get_entry usb_mx_id_cache_init "1.2" = none ∧
    (∀ a ∈ envOkConcrete.unbootedAttempts, ∀ b ∈ a.readBuf, b < 256) ∧
    (getLibusbDeviceMxId X_LINK_UNBOOTED "1.2" envOkConcrete usb_mx_id_cache_init).rc =
      LIBUSB_SUCCESS ∧
    ((∃ a ∈ envOkConcrete.unbootedAttempts,
      a.readBuf.length = 9 ∧
      (getLibusbDeviceMxId X_LINK_UNBOOTED "1.2" envOkConcrete usb_mx_id_cache_init).outMxId =
        renderMxId a.readBuf ∧
      (getLibusbDeviceMxId X_LINK_UNBOOTED "1.2" envOkConcrete usb_mx_id_cache_init).outMxId.length = 18 ∧
      ∀ c ∈ (getLibusbDeviceMxId X_LINK_UNBOOTED "1.2" envOkConcrete usb_mx_id_cache_init).outMxId.data,
        isUpperHexDigit c = true) ∧
      renderMxId [0x12, 0x34, 0x56, 0x78, 0x9A, 0xBC, 0xDE, 0xF0, 0x5A] =
        "123456789ABCDEF050") :=
  ⟨by decide, by decide, by decide,
    c1_unbooted_mxid_rendering "1.2" envOkConcrete usb_mx_id_cache_init
      (by decide) (by decide) (by decide)⟩

/-- C7: on a cache hit, `getLibusbDeviceMxId` returns the cached serial
immediately with success, leaving the cache untouched and never opening the
device (lines 284-289); consequently, after a cache-missing acquisition that
succeeded while the cache had room, a second call for the same path returns
the identical mxid without opening the device (lines 438-448 store, lines
284-289 hit). -/
theorem c7_cache_fast_path (st st2 : XLinkDeviceState_t) (path : String)
    (env env2 : MxIdEnv) (cache : MxIdCache) (m : String) :
    (usb_mx_id_cache_get_entry cache path = some m →
      getLibusbDeviceMxId st path env cache =
        ⟨LIBUSB_SUCCESS, m, cache, false⟩) ∧
    (usb_mx_id_cache_get_entry cache path = none →
      cache.entries.length < USB_MX_ID_CACHE_SIZE →
      (getLibusbDeviceMxId st path env cache).rc = LIBUSB_SUCCESS →
      getLibusbDeviceMxId st2 path env2 (getLibusbDeviceMxId st path env cache).cache =
        ⟨LIBUSB_SUCCESS, (getLibusbDeviceMxId st path env cache).outMxId,
          (getLibusbDeviceMxId st path env cache).cache, false⟩) := by
  constructor
  · intro hhit
    unfold getLibusbDeviceMxId
    rw [hhit]
  · intro hmiss hroom hrc
    obtain ⟨mxid, hr, heq⟩ := getLibusbDeviceMxId_miss_ok st path env cache hmiss hrc
    rw [heq]
    dsimp only
    have hget := cache_store_get cache mxid path hmiss hroom
    unfold getLibusbDeviceMxId
    rw [hget]

/-- C7 witness: part one on a cache holding `("1.2", mxid)`, part two on an
empty cache with a successful acquisition. -/
theorem c7_cache_fast_path_witness :
    (usb_mx_id_cache_get_entry (MxIdCache.mk [("1.2", "AA")]) "1.2" = some "AA" ∧
      getLibusbDeviceMxId X_LINK_UNBOOTED "1.2" envOkConcrete (MxIdCache.mk [("1.2", "AA")]) =
        ⟨LIBUSB_SUCCESS, "AA", MxIdCache.mk [("1.2", "AA")], false⟩) ∧
    (usb_mx_id_cache_get_entry usb_mx_id_cache_init "1.2" = none ∧
      usb_mx_id_cache_init.entries.length < USB_MX_ID_CACHE_SIZE ∧
      (getLibusbDeviceMxId X_LINK_UNBOOTED "1.2" envOkConcrete usb_mx_id_cache_init).rc =
        LIBUSB_SUCCESS ∧
      getLibusbDeviceMxId X_LINK_BOOTED "1.2" envAccessDenied
          (getLibusbDeviceMxId X_LINK_UNBOOTED "1.2" envOkConcrete usb_mx_id_cache_init).cache =
        ⟨LIBUSB_SUCCESS,
          (getLibusbDeviceMxId X_LINK_UNBOOTED "1.2" envOkConcrete usb_mx_id_cache_init).outMxId,
          (getLibusbDeviceMxId X_LINK_UNBOOTED "1.2" envOkConcrete usb_mx_id_cache_init).cache,
          false⟩) :=
  ⟨⟨by decide,
    (c7_cache_fast_path X_LINK_UNBOOTED X_LINK_BOOTED "1.2" envOkConcrete envAccessDenied
      (MxIdCache.mk [("1.2", "AA")]) "AA").1 (by decide)⟩,
   ⟨by decide, by decide, by decide,
    (c7_cache_fast_path X_LINK_UNBOOTED X_LINK_BOOTED "1.2" envOkConcrete envAccessDenied
      usb_mx_id_cache_init "AA").2 (by decide) (by decide) (by decide)⟩⟩

/-- C2: on a sweep whose device-list fetch succeeded, `getUSBDevices` returns
`X_LINK_PLATFORM_SUCCESS` unconditionally (line 201); the per-record status
is the translation of the MxId-acquisition outcome (success to
`X_LINK_SUCCESS`, `LIBUSB_ERROR_ACCESS` to
`X_LINK_INSUFFICIENT_PERMISSIONS`, anything else to `X_LINK_ERROR`, lines
158-169); and a device whose descriptor read, vid/pid lookup, state filter
and name filter all pass is written to the results whenever the mxid filter
accepts — regardless of the acquisition outcome — and is dropped only when a
non-empty mxid filter rejects (lines 171-189). -/
theorem c2_enumerator_status_and_inclusion
    (req : deviceDesc_t) (size : Nat) (devs : List UsbDeviceSim)
    (cache : MxIdCache) (d : UsbDeviceSim) (st : XLinkDeviceState_t)
    (hdesc : d.descOk = true)
    (hvid : vidPidToDeviceState d.idVendor d.idProduct = some st)
    (hstate : req.state = X_LINK_ANY_STATE ∨ st = req.state)
    (hname : req.name = "" ∨ req.name = getLibusbDevicePath d.bus d.ports) :
    (getUSBDevices req size (some devs)).1 = X_LINK_PLATFORM_SUCCESS ∧
    (statusSwitch LIBUSB_SUCCESS = X_LINK_SUCCESS ∧
      statusSwitch LIBUSB_ERROR_ACCESS = X_LINK_INSUFFICIENT_PERMISSIONS ∧
      ∀ rc : Int, rc ≠ LIBUSB_SUCCESS → rc ≠ LIBUSB_ERROR_ACCESS →
        statusSwitch rc = X_LINK_ERROR) ∧
    (∀ o, o = getLibusbDeviceMxId st (getLibusbDevicePath d.bus d.ports) d.mxidEnv cache →
      ((req.mxid = "" ∨ req.mxid = o.outMxId →
        processDevice req cache d =
          (o.cache, some {
            status := statusSwitch o.rc
            platform := XLinkPlatform_t.X_LINK_MYRIAD_X
            protocol := XLinkProtocol_t.X_LINK_USB_VSC
            state := st
            name := strncpyStr XLINK_MAX_NAME_SIZE (getLibusbDevicePath d.bus d.ports)
            mxid := strncpyStr XLINK_MAX_MX_ID_SIZE o.outMxId })) ∧
      (req.mxid ≠ "" ∧ req.mxid ≠ o.outMxId →
        processDevice req cache d = (o.cache, none)))) ∧
    (∀ (rest : List UsbDeviceSim) (room : Nat) (cache2 : MxIdCache) (rec : deviceDesc_t),
      d.present = true → room ≠ 0 →
      processDevice req cache d = (cache2, some rec) →
      getUSBDevicesLoop req (d :: rest) room cache =
        rec :: getUSBDevicesLoop req rest (room - 1) cache2) := by
  have hstate2 : ¬(req.state ≠ X_LINK_ANY_STATE ∧ st ≠ req.state) := by tauto
  have hname2 : ¬(0 < req.name.length ∧ req.name ≠ getLibusbDevicePath d.bus d.ports) := by
    rcases hname with h | h
    · rintro ⟨hl, _⟩
      rw [h] at hl
      simp at hl
    · rintro ⟨_, hne⟩
      exact hne h
  refine ⟨rfl, ⟨rfl, rfl, ?_⟩, ?_, ?_⟩
  · intro rc h1 h2
    rw [statusSwitch, if_neg h1, if_neg h2]
  · intro o ho
    constructor
    · intro hmx
      have hmx2 : ¬(0 < req.mxid.length ∧ req.mxid ≠ o.outMxId) := by
        rcases hmx with h | h
        · rintro ⟨hl, _⟩
          rw [h] at hl
          simp at hl
        · rintro ⟨_, hne⟩
          exact hne h
      rw [processDevice, if_neg (by simp [hdesc]), hvid]
      dsimp only
      rw [if_neg hstate2, if_neg hname2, ← ho, if_neg hmx2]
    · rintro ⟨hne1, hne2⟩
      have hmx2 : 0 < req.mxid.length ∧ req.mxid ≠ o.outMxId := by
        refine ⟨?_, hne2⟩
        by_contra h0
        exact hne1 (string_eq_empty_of_length _ (by omega))
      rw [processDevice, if_neg (by simp [hdesc]), hvid]
      dsimp only
      rw [if_neg hstate2, if_neg hname2, ← ho, if_pos hmx2]
  · intro rest room cache2 rec hpres hroom hproc
    rw [getUSBDevicesLoop, if_neg (by simp [hpres]), if_neg hroom, hproc]

/-- C2 witness: a device whose open is denied with `LIBUSB_ERROR_ACCESS` is
still written to the results, with status `X_LINK_INSUFFICIENT_PERMISSIONS`
and empty mxid, and the sweep reports platform success. -/
theorem c2_enumerator_status_and_inclusion_witness :
    devUnbootedDenied.descOk = true ∧
    vidPidToDeviceState devUnbootedDenied.idVendor devUnbootedDenied.idProduct =
      some X_LINK_UNBOOTED ∧
    (getUSBDevices reqAny 4 (some [devUnbootedDenied])).1 = X_LINK_PLATFORM_SUCCESS ∧
    processDevice reqAny usb_mx_id_cache_init devUnbootedDenied =
      (usb_mx_id_cache_init, some {
        status := X_LINK_INSUFFICIENT_PERMISSIONS
        platform := XLinkPlatform_t.X_LINK_MYRIAD_X
        protocol := XLinkProtocol_t.X_LINK_USB_VSC
        state := X_LINK_UNBOOTED
        name := "1.2"
        mxid := "" }) := by
  have h := c2_enumerator_status_and_inclusion reqAny 4 [devUnbootedDenied]
    usb_mx_id_cache_init devUnbootedDenied X_LINK_UNBOOTED rfl (by decide)
    (Or.inl rfl) (Or.inl rfl)
  refine ⟨rfl, by decide, h.1, ?_⟩
  have h2 := (h.2.2.1 _ rfl).1 (Or.inl rfl)
  rw [h2]
  decide

theorem deviceWF_parts (d : UsbDeviceSim) (h : deviceWF d = true) :
    d.bus < 256 ∧ ∀ p ∈ d.ports, p < 256 := by
  simp only [deviceWF, Bool.and_eq_true, decide_eq_true_eq, List.all_eq_true] at h
  exact h

theorem processDevice_wf (req : deviceDesc_t) (cache : MxIdCache) (d : UsbDeviceSim)
    (hwfc : cacheWF cache) :
    cacheWF (processDevice req cache d).1 := by
  rw [processDevice]
  split
  · exact hwfc
  · split
    · exact hwfc
    · next st heq =>
      split
      · exact hwfc
      · try dsimp only
        split
        · exact hwfc
        · try dsimp only
          split
          · exact (getLibusbDeviceMxId_bounds st _ d.mxidEnv cache hwfc).2
          · exact (getLibusbDeviceMxId_bounds st _ d.mxidEnv cache hwfc).2

theorem processDevice_some_filters (req : deviceDesc_t) (cache : MxIdCache)
    (d : UsbDeviceSim) (cache2 : MxIdCache) (rec : deviceDesc_t)
    (hwfc : cacheWF cache) (hwfd : deviceWF d = true)
    (h : processDevice req cache d = (cache2, some rec)) :
    (req.state = X_LINK_ANY_STATE ∨ rec.state = req.state) ∧
    (req.name = "" ∨ req.name = rec.name) ∧
    (req.mxid = "" ∨ req.mxid = rec.mxid) := by
  obtain ⟨hbus, hports⟩ := deviceWF_parts d hwfd
  have hpathlen : (getLibusbDevicePath d.bus d.ports).length ≤ 32 :=
    getLibusbDevicePath_length d.bus d.ports hbus hports
  rw [processDevice] at h
  split at h
  · exact absurd h (by simp)
  · split at h
    · exact absurd h (by simp)
    · next st heq =>
      have hmxlen : ((getLibusbDeviceMxId st (getLibusbDevicePath d.bus d.ports)
          d.mxidEnv cache).outMxId).length ≤ 31 :=
        (getLibusbDeviceMxId_bounds st _ d.mxidEnv cache hwfc).1
      split at h
      · exact absurd h (by simp)
      · next hstate =>
        try dsimp only at h
        split at h
        · exact absurd h (by simp)
        · next hname =>
          try dsimp only at h
          split at h
          · exact absurd h (by simp)
          · next hmx =>
            simp only [Prod.mk.injEq, Option.some.injEq] at h
            rw [← h.2]
            push_neg at hstate hname hmx
            refine ⟨?_, ?_, ?_⟩
            · by_cases hs : req.state = X_LINK_ANY_STATE
              · exact Or.inl hs
              · exact Or.inr (hstate hs)
            · by_cases hn : req.name = ""
              · exact Or.inl hn
              · refine Or.inr ?_
                have hlen : 0 < req.name.length := by
                  by_contra h0
                  exact hn (string_eq_empty_of_length _ (by omega))
                rw [hname hlen]
                dsimp only
                rw [strncpyStr_of_le _ _ (by unfold XLINK_MAX_NAME_SIZE; omega)]
            · by_cases hm : req.mxid = ""
              · exact Or.inl hm
              · refine Or.inr ?_
                have hlen : 0 < req.mxid.length := by
                  by_contra h0
                  exact hm (string_eq_empty_of_length _ (by omega))
                rw [hmx hlen]
                dsimp only
                rw [strncpyStr_of_le _ _ (by unfold XLINK_MAX_MX_ID_SIZE; omega)]

theorem mem_getUSBDevicesLoop_filters (req : deviceDesc_t) :
    ∀ (devs : List UsbDeviceSim) (room : Nat) (cache : MxIdCache) (rec : deviceDesc_t),
      cacheWF cache → (∀ d ∈ devs, deviceWF d = true) →
      rec ∈ getUSBDevicesLoop req devs room cache →
      (req.state = X_LINK_ANY_STATE ∨ rec.state = req.state) ∧
      (req.name = "" ∨ req.name = rec.name) ∧
      (req.mxid = "" ∨ req.mxid = rec.mxid)
  | [], room, cache, rec, _, _, hmem => by simp [getUSBDevicesLoop] at hmem
  | d :: rest, room, cache, rec, hwfc, hwfd, hmem => by
    rw [getUSBDevicesLoop] at hmem
    by_cases hpres : d.present = false
    · rw [if_pos hpres] at hmem
      exact mem_getUSBDevicesLoop_filters req rest room cache rec hwfc
        (fun x hx => hwfd x (by simp [hx])) hmem
    · rw [if_neg hpres] at hmem
      by_cases hroom : room = 0
      · rw [if_pos hroom] at hmem
        simp at hmem
      · rw [if_neg hroom] at hmem
        have hwf2 : cacheWF (processDevice req cache d).1 :=
          processDevice_wf req cache d hwfc
        cases hpd : processDevice req cache d with
        | mk cache2 orec =>
          rw [hpd] at hmem hwf2
          cases orec with
          | none =>
            exact mem_getUSBDevicesLoop_filters req rest room cache2 rec hwf2
              (fun x hx => hwfd x (by simp [hx])) hmem
          | some rec0 =>
            dsimp only at hmem
            rcases List.mem_cons.mp hmem with h1 | h1
            · subst h1
              exact processDevice_some_filters req cache d cache2 rec hwfc
                (hwfd d (by simp)) hpd
            · exact mem_getUSBDevicesLoop_filters req rest (room - 1) cache2 rec hwf2
                (fun x hx => hwfd x (by simp [hx])) h1

/-- C6: every record written to the output by `getUSBDevices` satisfies the
filter: the requested state is `X_LINK_ANY_STATE` or equals the record's
state, the requested name is empty or equals the record's path, and the
requested mxid is empty or equals the record's mxid (lines 141-176).  The
hypothesis `hwf` records that bus and port numbers are `uint8_t` values, as
in the C types. -/
theorem c6_filter_semantics (req : deviceDesc_t) (size : Nat)
    (devs : List UsbDeviceSim) (rec : deviceDesc_t)
    (hwf : ∀ d ∈ devs, deviceWF d = true)
    (hmem : rec ∈ (getUSBDevices req size (some devs)).2) :
    (req.state = X_LINK_ANY_STATE ∨ rec.state = req.state) ∧
    (req.name = "" ∨ req.name = rec.name) ∧
    (req.mxid = "" ∨ req.mxid = rec.mxid) :=
  mem_getUSBDevicesLoop_filters req devs size usb_mx_id_cache_init rec
    (by intro e he; simp [usb_mx_id_cache_init] at he) hwf hmem

/-- C6 witness: an accept-all filter and one successfully-acquired device;
the single record reported trivially satisfies all three disjunctions. -/
theorem c6_filter_semantics_witness :
    (∀ d ∈ [devUnbootedOk], deviceWF d = true) ∧
    ({ status := X_LINK_SUCCESS
       platform := XLinkPlatform_t.X_LINK_MYRIAD_X
       protocol := XLinkProtocol_t.X_LINK_USB_VSC
       state := X_LINK_UNBOOTED
       name := "1.2"
       mxid := "123456789ABCDEF050" } : deviceDesc_t) ∈
      (getUSBDevices reqAny 4 (some [devUnbootedOk])).2 ∧
    ((reqAny.state = X_LINK_ANY_STATE ∨
        ({ status := X_LINK_SUCCESS
           platform := XLinkPlatform_t.X_LINK_MYRIAD_X
           protocol := XLinkProtocol_t.X_LINK_USB_VSC
           state := X_LINK_UNBOOTED
           name := "1.2"
           mxid := "123456789ABCDEF050" } : deviceDesc_t).state = reqAny.state) ∧
      (reqAny.name = "" ∨ reqAny.name =
        ({ status := X_LINK_SUCCESS
           platform := XLinkPlatform_t.X_LINK_MYRIAD_X
           protocol := XLinkProtocol_t.X_LINK_USB_VSC
           state := X_LINK_UNBOOTED
           name := "1.2"
           mxid := "123456789ABCDEF050" } : deviceDesc_t).name) ∧
      (reqAny.mxid = "" ∨ reqAny.mxid =
        ({ status := X_LINK_SUCCESS
           platform := XLinkPlatform_t.X_LINK_MYRIAD_X
           protocol := XLinkProtocol_t.X_LINK_USB_VSC
           state := X_LINK_UNBOOTED
           name := "1.2"
           mxid := "123456789ABCDEF050" } : deviceDesc_t).mxid)) :=
  ⟨by decide, by decide,
    c6_filter_semantics reqAny 4 [devUnbootedOk] _ (by decide) (by decide)⟩

theorem usb_transfer_loop_total (endpoint chunk_size : Nat) :
    ∀ (oracle : List (Int × Nat)) (size : Nat),
      btBounded chunk_size size oracle = true →
      (usb_transfer_loop endpoint chunk_size size oracle).1 = some 0 →
      (usb_transfer_loop endpoint chunk_size size oracle).2.2 = size := by
  intro oracle
  induction oracle with
  | nil =>
    intro size hb h0
    rw [usb_transfer_loop] at h0 ⊢
    by_cases hsz : size = 0
    · rw [if_pos hsz]
      exact hsz.symm
    · rw [if_neg hsz] at h0
      exact absurd h0 (by simp)
  | cons p rest ih =>
    obtain ⟨rc, bt⟩ := p
    intro size hb h0
    rw [usb_transfer_loop] at h0 ⊢
    by_cases hsz : size = 0
    · rw [if_pos hsz]
      exact hsz.symm
    · rw [if_neg hsz] at h0 ⊢
      rw [btBounded] at hb
      simp only [Bool.and_eq_true, decide_eq_true_eq] at hb
      by_cases hrc : rc ≠ 0
      · rw [if_pos hrc] at h0
        simp only [Option.some.injEq] at h0
        exact absurd h0 hrc
      · rw [if_neg hrc] at h0 ⊢
        dsimp only at h0 ⊢
        rw [ih (size - bt) hb.2 h0]
        omega

theorem usb_transfer_loop_calls (endpoint chunk_size : Nat) :
    ∀ (oracle : List (Int × Nat)) (size : Nat) (call : BulkCall),
      call ∈ (usb_transfer_loop endpoint chunk_size size oracle).2.1 →
      call.endpoint = endpoint ∧ call.requested ≤ chunk_size ∧
        call.timeoutMs = XLINK_USB_DATA_TIMEOUT := by
  intro oracle
  induction oracle with
  | nil =>
    intro size call hc
    rw [usb_transfer_loop] at hc
    by_cases hsz : size = 0
    · rw [if_pos hsz] at hc
      simp at hc
    · rw [if_neg hsz] at hc
      simp at hc
  | cons p rest ih =>
    obtain ⟨rc, bt⟩ := p
    intro size call hc
    rw [usb_transfer_loop] at hc
    by_cases hsz : size = 0
    · rw [if_pos hsz] at hc
      simp at hc
    · rw [if_neg hsz] at hc
      by_cases hrc : rc ≠ 0
      · rw [if_pos hrc] at hc
        dsimp only at hc
        rcases List.mem_singleton.mp hc with h1
        rw [h1]
        refine ⟨rfl, ?_, rfl⟩
        dsimp only
        omega
      · rw [if_neg hrc] at hc
        dsimp only at hc
        rcases List.mem_cons.mp hc with h1 | h1
        · rw [h1]
          refine ⟨rfl, ?_, rfl⟩
          dsimp only
          omega
        · exact ih (size - bt) call h1

/-- C9: `usb_read` and `usb_write` process the buffer in chunks of
`min(size, chunk_size)` bytes over the fixed endpoints `0x81` (IN) and
`0x01` (OUT) with zero timeout (`XLINK_USB_DATA_TIMEOUT`); the first
`libusb_bulk_transfer` call returning a non-zero code aborts the loop and
that code is returned as is; and a `0` return means every byte of the
buffer was transferred (lines 851-883).  `chunk_size` stands for
`DEFAULT_CHUNKSZ` (usb_host.h, not among the sources); `hb` records that
libusb never reports more bytes than requested. -/
theorem c9_bulk_pipe_chunking (chunk_size size : Nat) (oracle : List (Int × Nat))
    (hb : btBounded chunk_size size oracle = true) :
    (∀ (sz : Nat) (rc : Int) (bt : Nat) (rest : List (Int × Nat)), sz ≠ 0 → rc ≠ 0 →
      (usb_read chunk_size sz ((rc, bt) :: rest)).1 = some rc ∧
      (usb_write chunk_size sz ((rc, bt) :: rest)).1 = some rc) ∧
    ((usb_read chunk_size size oracle).1 = some 0 →
      (usb_read chunk_size size oracle).2.2 = size) ∧
    ((usb_write chunk_size size oracle).1 = some 0 →
      (usb_write chunk_size size oracle).2.2 = size) ∧
    (∀ call ∈ (usb_read chunk_size size oracle).2.1,
      call.endpoint = USB_ENDPOINT_IN ∧ call.requested ≤ chunk_size ∧
        call.timeoutMs = XLINK_USB_DATA_TIMEOUT) ∧
    (∀ call ∈ (usb_write chunk_size size oracle).2.1,
      call.endpoint = USB_ENDPOINT_OUT ∧ call.requested ≤ chunk_size ∧
        call.timeoutMs = XLINK_USB_DATA_TIMEOUT) := by
  refine ⟨?_, ?_, ?_, ?_, ?_⟩
  · intro sz rc bt rest hsz hrc
    constructor
    · show (usb_transfer_loop USB_ENDPOINT_IN chunk_size sz ((rc, bt) :: rest)).1 = some rc
      rw [usb_transfer_loop, if_neg hsz, if_pos hrc]
    · show (usb_transfer_loop USB_ENDPOINT_OUT chunk_size sz ((rc, bt) :: rest)).1 = some rc
      rw [usb_transfer_loop, if_neg hsz, if_pos hrc]
  · exact usb_transfer_loop_total USB_ENDPOINT_IN chunk_size oracle size hb
  · exact usb_transfer_loop_total USB_ENDPOINT_OUT chunk_size oracle size hb
  · exact fun call hc => usb_transfer_loop_calls USB_ENDPOINT_IN chunk_size oracle size call hc
  · exact fun call hc => usb_transfer_loop_calls USB_ENDPOINT_OUT chunk_size oracle size call hc

/-- C9 witness: a 3000-byte buffer moved in chunks of at most 1024 bytes by
three error-free transfers. -/
theorem c9_bulk_pipe_chunking_witness :
    btBounded 1024 3000 [((0 : Int), 1024), ((0 : Int), 1024), ((0 : Int), 952)] = true ∧
    ((usb_read 1024 3000 [((0 : Int), 1024), ((0 : Int), 1024), ((0 : Int), 952)]).1 = some 0 →
      (usb_read 1024 3000 [((0 : Int), 1024), ((0 : Int), 1024), ((0 : Int), 952)]).2.2 = 3000) ∧
    (usb_read 1024 3000 [((0 : Int), 1024), ((0 : Int), 1024), ((0 : Int), 952)]).1 = some 0 ∧
    (usb_write 1024 50 [((-7 : Int), 0)]).1 = some (-7) :=
  ⟨by decide,
   (c9_bulk_pipe_chunking 1024 3000 [((0 : Int), 1024), ((0 : Int), 1024), ((0 : Int), 952)]
      (by decide)).2.1,
   by decide,
   ((c9_bulk_pipe_chunking 1024 50 [((-7 : Int), 0)] (by decide)).1 50 (-7) 0 []
      (by decide) (by decide)).2⟩

end XLinkUsbHost
